import Mathlib

/-!
Verification development for the `intermat` interface-combination generator
(`intermat/main.py`, class `InterfaceCombi`).

The relevant parts of the program are shallowly embedded below:

* geometry that the code performs with `numpy` floating point arithmetic is
  embedded over `ℝ` (exact real arithmetic) or over `ℚ` where the computation
  is compare-and-count logic;
* fallible code paths (Python `IndexError` from `matches[0]`, the explicit
  `raise ValueError` in the lead-ratio partition) are embedded as
  `Except PyErr`;
* the in-place mutation of the displacement grid `self.xy` is embedded as an
  explicit state transformation on a list of rows.

External collaborators that are not part of this repository (the `jarvis`
structure utilities `add_atoms`, `make_supercell_matrix`, `Atoms`) are
modelled from the specification's collaborator contracts; each such model is
marked in its doc comment.
-/

namespace Intermat

/-! ### Three-component vectors (rows of `numpy` arrays in the source) -/

/-- A 3-component real vector, the embedding of one row of a `numpy` array of
shape `(3,)` as used for superlattice vectors and lattice vectors. -/
structure Vec3 where
  x : ℝ
  y : ℝ
  z : ℝ

/-- Embedding of `np.dot(u, v)` for 3-vectors. -/
def dot3 (u v : Vec3) : ℝ := u.x * v.x + u.y * v.y + u.z * v.z

/-- Embedding of `np.linalg.norm(v)` for a 3-vector. -/
noncomputable def norm3 (v : Vec3) : ℝ := Real.sqrt (v.x ^ 2 + v.y ^ 2 + v.z ^ 2)

/-- Embedding of `np.cross(u, v)`. -/
def cross3 (u v : Vec3) : Vec3 :=
  ⟨u.y * v.z - u.z * v.y, u.z * v.x - u.x * v.z, u.x * v.y - u.y * v.x⟩

/-- Scalar multiple of a 3-vector (embedding of `s * v` on `numpy` arrays). -/
def smul3 (s : ℝ) (v : Vec3) : Vec3 := ⟨s * v.x, s * v.y, s * v.z⟩

theorem norm3_smul (s : ℝ) (v : Vec3) : norm3 (smul3 s v) = |s| * norm3 v := by
  unfold norm3 smul3
  rw [show (s * v.x) ^ 2 + (s * v.y) ^ 2 + (s * v.z) ^ 2
        = s ^ 2 * (v.x ^ 2 + v.y ^ 2 + v.z ^ 2) by ring]
  rw [Real.sqrt_mul (sq_nonneg s), Real.sqrt_sq_eq_abs]

/-! ### Mismatch metrics (`make_interface`, main.py lines 153-175)

The code reads `a1, a2 = sub_sl_vecs` and `b1, b2 = film_sl_vecs` from the
first match and computes the metrics below.  They are pure functions of the
match vectors; the embedding is functional, so absence of side effects is
inherent. -/

/-- Source: `mismatch_u = np.linalg.norm(b1) / np.linalg.norm(a1) - 1`. -/
noncomputable def mismatch_u (a1 b1 : Vec3) : ℝ := norm3 b1 / norm3 a1 - 1

/-- Source: `mismatch_v = np.linalg.norm(b2) / np.linalg.norm(a2) - 1`. -/
noncomputable def mismatch_v (a2 b2 : Vec3) : ℝ := norm3 b2 / norm3 a2 - 1

/-- Source: `np.arccos(np.dot(p, q) / np.linalg.norm(p) / np.linalg.norm(q)) * 180 / np.pi`
(the code's chained division). -/
noncomputable def angleDegCode (p q : Vec3) : ℝ :=
  Real.arccos (dot3 p q / norm3 p / norm3 q) * 180 / Real.pi

/-- Source: `mismatch_angle = abs(angle1 - angle2)` with `angle1` over the
substrate vectors and `angle2` over the film vectors. -/
noncomputable def mismatch_angle (a1 a2 b1 b2 : Vec3) : ℝ :=
  |angleDegCode a1 a2 - angleDegCode b1 b2|

/-- Source: `area1 = np.linalg.norm(np.cross(a1, a2))`. -/
noncomputable def area1 (a1 a2 : Vec3) : ℝ := norm3 (cross3 a1 a2)

/-- Source: `area2 = np.linalg.norm(np.cross(b1, b2))`. -/
noncomputable def area2 (b1 b2 : Vec3) : ℝ := norm3 (cross3 b1 b2)

/-- Spec-side formula: `mismatch_u = |b1|/|a1| - 1`. -/
noncomputable def mismatchUSpec (a1 b1 : Vec3) : ℝ := norm3 b1 / norm3 a1 - 1

/-- Spec-side formula: `mismatch_v = |b2|/|a2| - 1`. -/
noncomputable def mismatchVSpec (a2 b2 : Vec3) : ℝ := norm3 b2 / norm3 a2 - 1

/-- Spec-side formula: `angle(x,y) = arccos(x·y / (|x||y|))`, reported in degrees. -/
noncomputable def angleDegSpec (p q : Vec3) : ℝ :=
  Real.arccos (dot3 p q / (norm3 p * norm3 q)) * 180 / Real.pi

/-- Spec-side formula: `mismatch_angle = |angle(a1,a2) - angle(b1,b2)|` in degrees. -/
noncomputable def mismatchAngleSpec (a1 a2 b1 b2 : Vec3) : ℝ :=
  |angleDegSpec a1 a2 - angleDegSpec b1 b2|

/-- Spec-side formula: `area1 = |a1 × a2|`. -/
noncomputable def area1Spec (a1 a2 : Vec3) : ℝ := norm3 (cross3 a1 a2)

/-- Spec-side formula: `area2 = |b1 × b2|`. -/
noncomputable def area2Spec (b1 b2 : Vec3) : ℝ := norm3 (cross3 b1 b2)

/-- C3: for every match consumed by `make_interface` with substrate in-plane
superlattice vectors `(a1, a2)` and film vectors `(b1, b2)`, all of non-zero
length, the reported metrics equal `mismatch_u = |b1|/|a1| - 1`,
`mismatch_v = |b2|/|a2| - 1`, `mismatch_angle = |angle(a1,a2) - angle(b1,b2)|`
in degrees with `angle(x,y) = arccos(x·y/(|x||y|))`, `area1 = |a1 × a2|` and
`area2 = |b1 × b2|`; the embedding is a pure function of the match vectors. -/
theorem make_interface_mismatch_metrics (a1 a2 b1 b2 : Vec3)
    (h1 : norm3 a1 ≠ 0) (h2 : norm3 a2 ≠ 0) (h3 : norm3 b1 ≠ 0)
    (h4 : norm3 b2 ≠ 0) :
    mismatch_u a1 b1 = mismatchUSpec a1 b1 ∧
    mismatch_v a2 b2 = mismatchVSpec a2 b2 ∧
    mismatch_angle a1 a2 b1 b2 = mismatchAngleSpec a1 a2 b1 b2 ∧
    area1 a1 a2 = area1Spec a1 a2 ∧
    area2 b1 b2 = area2Spec b1 b2 := by
  refine ⟨rfl, rfl, ?_, rfl, rfl⟩
  unfold mismatch_angle mismatchAngleSpec angleDegCode angleDegSpec
  rw [div_div, div_div]

theorem norm3_unit_x : norm3 ⟨1, 0, 0⟩ = 1 := by
  unfold norm3
  norm_num

theorem norm3_unit_y : norm3 ⟨0, 1, 0⟩ = 1 := by
  unfold norm3
  norm_num

/-- Witness for C3 at the concrete unit vectors `a1 = b1 = (1,0,0)`,
`a2 = b2 = (0,1,0)`. -/
theorem make_interface_mismatch_metrics_witness :
    (norm3 ⟨1, 0, 0⟩ ≠ 0 ∧ norm3 ⟨0, 1, 0⟩ ≠ 0) ∧
    (mismatch_u ⟨1, 0, 0⟩ ⟨1, 0, 0⟩ = mismatchUSpec ⟨1, 0, 0⟩ ⟨1, 0, 0⟩ ∧
      mismatch_v ⟨0, 1, 0⟩ ⟨0, 1, 0⟩ = mismatchVSpec ⟨0, 1, 0⟩ ⟨0, 1, 0⟩ ∧
      mismatch_angle ⟨1, 0, 0⟩ ⟨0, 1, 0⟩ ⟨1, 0, 0⟩ ⟨0, 1, 0⟩
        = mismatchAngleSpec ⟨1, 0, 0⟩ ⟨0, 1, 0⟩ ⟨1, 0, 0⟩ ⟨0, 1, 0⟩ ∧
      area1 ⟨1, 0, 0⟩ ⟨0, 1, 0⟩ = area1Spec ⟨1, 0, 0⟩ ⟨0, 1, 0⟩ ∧
      area2 ⟨1, 0, 0⟩ ⟨0, 1, 0⟩ = area2Spec ⟨1, 0, 0⟩ ⟨0, 1, 0⟩) :=
  ⟨⟨by rw [norm3_unit_x]; norm_num, by rw [norm3_unit_y]; norm_num⟩,
    make_interface_mismatch_metrics ⟨1, 0, 0⟩ ⟨0, 1, 0⟩ ⟨1, 0, 0⟩ ⟨0, 1, 0⟩
      (by rw [norm3_unit_x]; norm_num) (by rw [norm3_unit_y]; norm_num)
      (by rw [norm3_unit_x]; norm_num) (by rw [norm3_unit_y]; norm_num)⟩

/-! ### Normal-direction shift (`make_interface`, main.py lines 210-237)

The code first computes a `shift_normal` from `sub_z` and immediately
overwrites it; only the second assignment is live:

    tmp = (thickness_film / 2 + seperation + thickness_sub / 2) / norm(c)
    shift_normal = tmp * c / norm(c)

where `c = subs_scell.lattice_mat[2, :]` is the substrate supercell's third
lattice vector. -/

/-- Source: `tmp = (thickness_film / 2 + seperation + thickness_sub / 2)
/ np.linalg.norm(subs_scell.lattice_mat[2, :])`. -/
noncomputable def tmpShift (thickness_film thickness_sub seperation : ℝ)
    (c : Vec3) : ℝ :=
  (thickness_film / 2 + seperation + thickness_sub / 2) / norm3 c

/-- Source: `shift_normal = tmp * np.array(subs_scell.lattice_mat[2, :])
/ np.linalg.norm(subs_scell.lattice_mat[2, :])` (the live, second assignment). -/
noncomputable def shift_normal (thickness_film thickness_sub seperation : ℝ)
    (c : Vec3) : Vec3 :=
  smul3 (tmpShift thickness_film thickness_sub seperation c)
    (smul3 (norm3 c)⁻¹ c)

/-- Modelled from the spec: the external merging utility (`add_atoms`, a
periodic-boundary collaborator outside this repository) recenters both
supercells around the origin and offsets the film from the substrate by the
shift vector taken as a fractional displacement along the substrate's
out-of-plane lattice vector, so the film's Cartesian center offset along the
normal is the fractional magnitude `tmp` times `‖c‖`.  The film's bottom then
sits at that offset minus half the film thickness. -/
noncomputable def filmBottomZ (thickness_film thickness_sub seperation : ℝ)
    (c : Vec3) : ℝ :=
  tmpShift thickness_film thickness_sub seperation c * norm3 c
    - thickness_film / 2

/-- Modelled from the spec: after recentering around the origin the substrate's
top surface sits at half the substrate thickness. -/
noncomputable def subsTopZ (thickness_sub : ℝ) : ℝ := thickness_sub / 2

/-- C5: after both supercells are recentered around the origin, the film is
shifted relative to the substrate by a vector along the substrate supercell's
out-of-plane lattice direction (a scalar multiple of `c`) whose length is
`thickness_film/2 + separation + thickness_sub/2` expressed as a fraction of
the substrate's third lattice vector (that is, divided by `‖c‖`), and the
placement puts the film's bottom exactly `separation` above the substrate's
top surface for every pair of slab thicknesses. -/
theorem make_interface_normal_shift (tf ts sep : ℝ) (c : Vec3)
    (hc : 0 < norm3 c) (htf : 0 ≤ tf) (hts : 0 ≤ ts) (hsep : 0 ≤ sep) :
    shift_normal tf ts sep c
      = smul3 ((tf / 2 + sep + ts / 2) / (norm3 c) ^ 2) c ∧
    norm3 (shift_normal tf ts sep c) = (tf / 2 + sep + ts / 2) / norm3 c ∧
    filmBottomZ tf ts sep c - subsTopZ ts = sep := by
  have hne : norm3 c ≠ 0 := ne_of_gt hc
  refine ⟨?_, ?_, ?_⟩
  · unfold shift_normal tmpShift smul3
    have hx : ∀ a : ℝ, (tf / 2 + sep + ts / 2) / norm3 c * ((norm3 c)⁻¹ * a)
        = (tf / 2 + sep + ts / 2) / norm3 c ^ 2 * a := by
      intro a
      simp only [div_eq_mul_inv, sq, mul_inv]
      ring
    rw [hx c.x, hx c.y, hx c.z]
  · unfold shift_normal
    rw [norm3_smul, norm3_smul]
    have habs : |(norm3 c)⁻¹| = (norm3 c)⁻¹ := abs_of_pos (by positivity)
    have hnum : 0 ≤ tf / 2 + sep + ts / 2 := by linarith
    have htmp : 0 ≤ tmpShift tf ts sep c := div_nonneg hnum (le_of_lt hc)
    rw [habs, abs_of_nonneg htmp, inv_mul_cancel₀ hne, mul_one]
    rfl
  · unfold filmBottomZ subsTopZ tmpShift
    field_simp
    ring

/-- Witness for C5 at `c = (0,0,1)`, `thickness_film = 2`,
`thickness_sub = 2`, `separation = 1`. -/
theorem make_interface_normal_shift_witness :
    (0 < norm3 ⟨0, 0, 1⟩ ∧ (0 : ℝ) ≤ 2 ∧ (0 : ℝ) ≤ 1) ∧
    (shift_normal 2 2 1 ⟨0, 0, 1⟩
        = smul3 ((2 / 2 + 1 + 2 / 2) / (norm3 ⟨0, 0, 1⟩) ^ 2) ⟨0, 0, 1⟩ ∧
      norm3 (shift_normal 2 2 1 ⟨0, 0, 1⟩)
        = (2 / 2 + 1 + 2 / 2) / norm3 ⟨0, 0, 1⟩ ∧
      filmBottomZ 2 2 1 ⟨0, 0, 1⟩ - subsTopZ 2 = 1) :=
  ⟨⟨by unfold norm3; norm_num, by norm_num, by norm_num⟩,
    make_interface_normal_shift 2 2 1 ⟨0, 0, 1⟩
      (by unfold norm3; norm_num) (by norm_num) (by norm_num) (by norm_num)⟩

/-! ### Python error outcomes

The embedding distinguishes the unchecked fault raised by an out-of-range
index (`matches[0]` on an empty list, Python `IndexError`) from the explicit
`raise ValueError(...)` in the lead-ratio partition, which is the reported
fatal condition of the design. -/

/-- Embedding of the Python exceptions the relevant code can raise:
`indexError` is the unchecked fault of `matches[0]` on an empty sequence,
`valueError` is the explicit `raise ValueError("Check fractional tolerance",
right, left, middle, total)` carrying the four offending counts. -/
inductive PyErr where
  | indexError : PyErr
  | valueError : List ℕ → PyErr
deriving DecidableEq

/-- A failure is a reported fatal condition exactly when it is an explicit
`raise ValueError` (an `IndexError` from an out-of-range subscript is an
unchecked fault, not a reported condition). -/
def isReportedFailure {α : Type} : Except PyErr α → Bool
  | Except.error (PyErr.valueError _) => true
  | _ => false

/-! ### Empty match list (`make_interface`, main.py lines 137-153)

After `matches = list(z(...))` the code immediately evaluates
`matches[0]["sub_sl_vecs"]` with no emptiness check, so an empty match
sequence raises `IndexError`. -/

/-- Embedding of `matches[0]` (main.py line 153): the first element of the
match sequence, or the Python `IndexError` fault when the sequence is empty.
The match payload type is abstract because the matcher is an external
collaborator. -/
def selectFirstMatch {M : Type} (ms : List M) : Except PyErr M :=
  match ms with
  | [] => Except.error PyErr.indexError
  | m :: _ => Except.ok m

/-- Embedding of the per-grid-point candidate computation as driven by
`generate`: `make_interface` consumes `matches[0]` and every later step of the
grid point (metrics, supercells, assembly, naming) depends on it, so the
whole grid point is the image of the first match under the rest of the
pipeline (abstracted as `rest`). -/
def gridPointCandidate {M C : Type} (ms : List M) (rest : M → C) :
    Except PyErr C :=
  (selectFirstMatch ms).map rest

/-- Candidates appended to `gen_intfs` for one grid point: one record on
success, none when the computation raised (there is no `try/except` around
the loop body in `generate`). -/
def emittedCandidates {C : Type} : Except PyErr C → List C
  | Except.ok c => [c]
  | Except.error _ => []

/-- Counterexample to C2: on an empty match sequence, `make_interface` does
not surface a reported fatal condition — the failure is the unchecked
`IndexError` fault of `matches[0]`. -/
theorem empty_matches_not_reported :
    selectFirstMatch ([] : List ℕ) = Except.error PyErr.indexError ∧
    isReportedFailure (selectFirstMatch ([] : List ℕ)) = false := by
  constructor
  · rfl
  · rfl

/-- C2 (amended): for every film/substrate pair for which the lattice matcher
returns an empty match sequence, the first-element access `matches[0]` raises
an unchecked `IndexError` that aborts that grid point, and no candidate is
emitted for it; the condition is an unchecked fault, not an explicitly
reported error, and no silent NaN is produced. -/
theorem empty_matches_aborts_grid_point {M C : Type} (ms : List M)
    (rest : M → C) (h : ms = []) :
    gridPointCandidate ms rest = Except.error PyErr.indexError ∧
    emittedCandidates (gridPointCandidate ms rest) = [] ∧
    isReportedFailure (gridPointCandidate ms rest) = false := by
  subst h
  exact ⟨rfl, rfl, rfl⟩

/-- Witness for C2 (amended) at the concrete empty match list with a trivial
continuation. -/
theorem empty_matches_aborts_grid_point_witness :
    ([] : List ℕ) = [] ∧
    (gridPointCandidate ([] : List ℕ) id = Except.error PyErr.indexError ∧
      emittedCandidates (gridPointCandidate ([] : List ℕ) id) = [] ∧
      isReportedFailure (gridPointCandidate ([] : List ℕ) id) = false) :=
  ⟨rfl, empty_matches_aborts_grid_point ([] : List ℕ) id rfl⟩

/-! ### Orientation selection (`generate`, main.py lines 431-466)

For each grid point `generate` calls `get_interface` twice — `info1` with
`film_atoms=i, subs_atoms=j` and `info2` with the roles reversed, where `i`
ranges over `subs_mats` and `j` over `film_mats` — computes
`max_mis = max(abs(mismatch_u), abs(mismatch_v))` for each, and keeps
`info1` when `max_mis2 > max_mis1`, else `info2`. -/

/-- The part of a `get_interface` result that orientation selection inspects,
plus the chosen geometry.  The geometry payload is abstract (for the
counterexample it records the assembled structure's atom count, so two
different payloads are structures no relabeling can identify). -/
structure IfcInfo (G : Type) where
  mismatch_u : ℚ
  mismatch_v : ℚ
  geometry : G
deriving DecidableEq

/-- Source: `max_mis = max(abs(mis_u), abs(mis_v))` (main.py lines 444-446). -/
def maxMis {G : Type} (info : IfcInfo G) : ℚ :=
  max |info.mismatch_u| |info.mismatch_v|

/-- Embedding of the two-direction build and the selection
`if max_mis2 > max_mis1: chosen_info = info1 else: chosen_info = info2`
(main.py lines 441-466).  `build film subs` abstracts `get_interface` with
the remaining grid-point parameters fixed; `i` is the `subs_mats` entry and
`j` the `film_mats` entry, and the source passes `film_atoms=i, subs_atoms=j`
for `info1`. -/
def chooseOrientation {M G : Type} (build : M → M → IfcInfo G) (i j : M) :
    IfcInfo G :=
  let info1 := build i j
  let info2 := build j i
  if maxMis info2 > maxMis info1 then info1 else info2

/-- Counterexample collaborator for C1: the two directions have exactly equal
worst-axis mismatch `1/10` (via `mismatch_u = 1/10` one way and `-1/10` the
other), but assemble geometries with different atom counts (3 versus 5). -/
def buildTie : Bool → Bool → IfcInfo ℕ :=
  fun i j =>
    if i = false ∧ j = true then ⟨1/10, 0, 3⟩
    else if i = true ∧ j = false then ⟨-(1/10), 0, 5⟩
    else ⟨0, 0, 0⟩

/-- Counterexample to C1: at an exact tie of the two directions' worst-axis
mismatches, the run labeled one way and the run with film/substrate labels
swapped choose geometries with different atom counts, which no relabeling
can identify. -/
theorem maxMis_buildTie_ft : maxMis (buildTie false true) = 1/10 := by
  show max |((1 : ℚ)/10)| |(0 : ℚ)| = 1/10
  rw [abs_of_nonneg (by norm_num : (0 : ℚ) ≤ 1/10), abs_zero]
  exact max_eq_left (by norm_num)

theorem maxMis_buildTie_tf : maxMis (buildTie true false) = 1/10 := by
  show max |(-((1 : ℚ)/10))| |(0 : ℚ)| = 1/10
  rw [abs_neg, abs_of_nonneg (by norm_num : (0 : ℚ) ≤ 1/10), abs_zero]
  exact max_eq_left (by norm_num)

theorem orientation_tie_not_commutative :
    maxMis (buildTie false true) = maxMis (buildTie true false) ∧
    (chooseOrientation buildTie false true).geometry
      ≠ (chooseOrientation buildTie true false).geometry := by
  constructor
  · rw [maxMis_buildTie_ft, maxMis_buildTie_tf]
  · unfold chooseOrientation
    simp only [maxMis_buildTie_ft, maxMis_buildTie_tf, gt_iff_lt,
      lt_self_iff_false, if_false]
    show (5 : ℕ) ≠ 3
    decide

/-- C1 (amended): for every grid point, `generate` builds the interface in
both film/substrate directions and keeps the direction whose worst-axis
mismatch `max(|mismatch_u|, |mismatch_v|)` is smaller; swapping which
material is labeled film versus substrate yields the same chosen geometry
whenever the two directions' worst-axis mismatches differ (at an exact tie
each run keeps its second-built direction, so the two label-swapped runs can
choose different geometries). -/
theorem generate_orientation_selection {M G : Type}
    (build : M → M → IfcInfo G) (i j : M)
    (h : maxMis (build i j) ≠ maxMis (build j i)) :
    chooseOrientation build i j = chooseOrientation build j i ∧
    (maxMis (build i j) < maxMis (build j i) →
      chooseOrientation build i j = build i j) ∧
    (maxMis (build j i) < maxMis (build i j) →
      chooseOrientation build i j = build j i) := by
  unfold chooseOrientation
  rcases lt_trichotomy (maxMis (build i j)) (maxMis (build j i)) with hlt | heq | hgt
  · have h1 : maxMis (build j i) > maxMis (build i j) := hlt
    have h2 : ¬ maxMis (build i j) > maxMis (build j i) := not_lt.mpr (le_of_lt hlt)
    refine ⟨?_, fun _ => ?_, fun hc => absurd hlt (not_lt.mpr (le_of_lt hc))⟩
    · simp only [if_pos h1, if_neg h2]
    · simp only [if_pos h1]
  · exact absurd heq h
  · have h1 : ¬ maxMis (build j i) > maxMis (build i j) := not_lt.mpr (le_of_lt hgt)
    have h2 : maxMis (build i j) > maxMis (build j i) := hgt
    refine ⟨?_, fun hc => absurd hgt (not_lt.mpr (le_of_lt hc)), fun _ => ?_⟩
    · simp only [if_neg h1, if_pos h2]
    · simp only [if_neg h1]

/-- Witness collaborator for C1 (amended): the two directions have distinct
worst-axis mismatches `3/10` and `1/10`. -/
def buildDistinct : Bool → Bool → IfcInfo ℕ :=
  fun i _ => if i = true then ⟨1/10, 0, 7⟩ else ⟨3/10, 0, 4⟩

theorem maxMis_buildDistinct_ft : maxMis (buildDistinct false true) = 3/10 := by
  show max |((3 : ℚ)/10)| |(0 : ℚ)| = 3/10
  rw [abs_of_nonneg (by norm_num : (0 : ℚ) ≤ 3/10), abs_zero]
  exact max_eq_left (by norm_num)

theorem maxMis_buildDistinct_tf : maxMis (buildDistinct true false) = 1/10 := by
  show max |((1 : ℚ)/10)| |(0 : ℚ)| = 1/10
  rw [abs_of_nonneg (by norm_num : (0 : ℚ) ≤ 1/10), abs_zero]
  exact max_eq_left (by norm_num)

theorem buildDistinct_maxMis_ne :
    maxMis (buildDistinct false true) ≠ maxMis (buildDistinct true false) := by
  rw [maxMis_buildDistinct_ft, maxMis_buildDistinct_tf]
  norm_num

/-- Witness for C1 (amended) at the concrete collaborator `buildDistinct`
and the pair `(false, true)`. -/
theorem generate_orientation_selection_witness :
    maxMis (buildDistinct false true) ≠ maxMis (buildDistinct true false) ∧
    (chooseOrientation buildDistinct false true
        = chooseOrientation buildDistinct true false ∧
      (maxMis (buildDistinct false true) < maxMis (buildDistinct true false) →
        chooseOrientation buildDistinct false true = buildDistinct false true) ∧
      (maxMis (buildDistinct true false) < maxMis (buildDistinct false true) →
        chooseOrientation buildDistinct false true = buildDistinct true false)) :=
  ⟨buildDistinct_maxMis_ne,
    generate_orientation_selection buildDistinct false true buildDistinct_maxMis_ne⟩

/-! ### Lead-ratio partition (`make_interface`, main.py lines 262-319)

When `lead_ratio` is set the code splits the combined structure's sites by
fractional coordinate along axis 0:

    coords_left   <-  coords[:, 0] < lead_ratio
    coords_right  <-  coords[:, 0] > 0.5 + lead_ratio
    coords_middle <-  (coords[:, 0] <= 0.5 + lead_ratio) & (coords[:, 0] >= lead_ratio)

and raises `ValueError("Check fractional tolerance", right, left, middle,
total)` when the three counts do not sum to the total.  Sites are embedded by
their axis-0 fractional coordinate. -/

/-- Source: `len(elements_left)` — sites with `x < lead_ratio`. -/
def countLeft (r : ℚ) (xs : List ℚ) : ℕ :=
  (xs.filter (fun x => decide (x < r))).length

/-- Source: `len(elements_right)` — sites with `x > 0.5 + lead_ratio`. -/
def countRight (r : ℚ) (xs : List ℚ) : ℕ :=
  (xs.filter (fun x => decide (1/2 + r < x))).length

/-- Source: `len(elements_middle)` — sites with
`(x <= 0.5 + lead_ratio) & (x >= lead_ratio)`. -/
def countMiddle (r : ℚ) (xs : List ℚ) : ℕ :=
  (xs.filter (fun x => decide (x ≤ 1/2 + r ∧ r ≤ x))).length

/-- Embedding of the count-consistency check (main.py lines 310-319): raise
`ValueError` carrying the four offending counts when
`len(right) + len(left) + len(middle) != len(total)`. -/
def leadCheck (r : ℚ) (xs : List ℚ) : Except PyErr Unit :=
  if countRight r xs + countLeft r xs + countMiddle r xs ≠ xs.length then
    Except.error (PyErr.valueError
      [countRight r xs, countLeft r xs, countMiddle r xs, xs.length])
  else Except.ok ()

/-- Number of regions (left, right, middle) a single site falls into. -/
def regionCount (r x : ℚ) : ℕ :=
  (if x < r then 1 else 0) + (if 1/2 + r < x then 1 else 0)
    + (if x ≤ 1/2 + r ∧ r ≤ x then 1 else 0)

theorem regionCount_eq_one (r x : ℚ) : regionCount r x = 1 := by
  unfold regionCount
  rcases lt_or_le x r with h1 | h1
  · have h2 : ¬ (1/2 + r < x) := by linarith
    have h3 : ¬ (x ≤ 1/2 + r ∧ r ≤ x) := fun hc => absurd h1 (not_lt.mpr hc.2)
    rw [if_pos h1, if_neg h2, if_neg h3]
  · rcases le_or_lt x (1/2 + r) with h2 | h2
    · have hn1 : ¬ x < r := not_lt.mpr h1
      have hn2 : ¬ (1/2 + r < x) := not_lt.mpr h2
      rw [if_neg hn1, if_neg hn2, if_pos ⟨h2, h1⟩]
    · have hn1 : ¬ x < r := not_lt.mpr h1
      have hn3 : ¬ (x ≤ 1/2 + r ∧ r ≤ x) := fun hc => absurd h2 (not_lt.mpr hc.1)
      rw [if_neg hn1, if_pos h2, if_neg hn3]

theorem filter_three_partition {α : Type} (p q s : α → Bool)
    (h : ∀ x, (if p x then 1 else 0) + (if q x then 1 else 0)
      + (if s x then 1 else 0) = 1)
    (xs : List α) :
    (xs.filter p).length + (xs.filter q).length + (xs.filter s).length
      = xs.length := by
  induction xs with
  | nil => rfl
  | cons a tl ih =>
      have ha := h a
      simp only [List.filter_cons, List.length_cons]
      cases hp : p a <;> cases hq : q a <;> cases hs : s a <;>
        simp [hp, hq, hs] at ha ⊢ <;> omega

theorem lead_counts_sum (r : ℚ) (xs : List ℚ) :
    countLeft r xs + countRight r xs + countMiddle r xs = xs.length := by
  unfold countLeft countRight countMiddle
  apply filter_three_partition
  intro x
  have h := regionCount_eq_one r x
  unfold regionCount at h
  simpa [decide_eq_true_eq] using h

/-- C4: for every configured lead fraction `r` in `[0, 0.5)` and every list of
axis-0 fractional site coordinates, each site falls in exactly one of the
left (`x < r`), right (`x > 0.5 + r`), and middle (`r ≤ x ≤ 0.5 + r`)
regions, so `count(left) + count(middle) + count(right) = count(total)`; the
`ValueError` branch carrying the four counts is therefore unreachable under
exact (real-valued) coordinates and the check succeeds. -/
theorem lead_partition_consistent (r : ℚ) (xs : List ℚ)
    (h0 : 0 ≤ r) (h1 : r < 1/2) :
    (∀ x ∈ xs, regionCount r x = 1) ∧
    countLeft r xs + countMiddle r xs + countRight r xs = xs.length ∧
    leadCheck r xs = Except.ok () := by
  have hsum := lead_counts_sum r xs
  refine ⟨fun x _ => regionCount_eq_one r x, by omega, ?_⟩
  unfold leadCheck
  rw [if_neg (by omega)]

/-- Witness for C4 at `r = 1/4` and five concrete sites, one on each side of
each boundary and one exactly on a boundary. -/
theorem lead_partition_consistent_witness :
    ((0 : ℚ) ≤ 1/4 ∧ (1/4 : ℚ) < 1/2) ∧
    ((∀ x ∈ [(0 : ℚ), 1/4, 3/10, 3/4, 9/10], regionCount (1/4) x = 1) ∧
      countLeft (1/4) [(0 : ℚ), 1/4, 3/10, 3/4, 9/10]
          + countMiddle (1/4) [(0 : ℚ), 1/4, 3/10, 3/4, 9/10]
          + countRight (1/4) [(0 : ℚ), 1/4, 3/10, 3/4, 9/10]
        = ([(0 : ℚ), 1/4, 3/10, 3/4, 9/10] : List ℚ).length ∧
      leadCheck (1/4) [(0 : ℚ), 1/4, 3/10, 3/4, 9/10] = Except.ok ()) :=
  ⟨⟨by norm_num, by norm_num⟩,
    lead_partition_consistent (1/4) [(0 : ℚ), 1/4, 3/10, 3/4, 9/10]
      (by norm_num) (by norm_num)⟩

/-! ### Candidate naming (`generate`, main.py lines 399-427)

The source computes

    tmp_i = str(ii)            if subs_ids is empty, else subs_ids[ii]
    tmp_j = str(jj)            if film_ids is empty, else film_ids[ii]

(note the second branch indexes `film_ids` with `ii`, the substrate
position), then string-joins the fields in a fixed order.  The numeric
thickness/separation fields and the rounded displacement components enter
the name through Python `str(...)`; they are taken here as the already
rendered strings, since the claim concerns field order and identifier
indexing, not float formatting. -/

/-- Source: the interface name composition of `generate` (main.py lines
408-427), including the source's `film_ids[ii]` lookup.  Out-of-range lookup
is modelled with `List.getD` (the in-range cases are the ones exercised). -/
def interfaceName (subs_ids film_ids : List String) (ii jj : ℕ)
    (film_index subs_index : List ℤ)
    (film_thickness subs_thickness seperation : String)
    (dis : List String) : String :=
  let tmp_i := if subs_ids = [] then toString ii else subs_ids.getD ii ""
  let tmp_j := if film_ids = [] then toString jj else film_ids.getD ii ""
  "Interface-" ++ tmp_i ++ "_" ++ tmp_j ++ "_" ++ "film_miller_"
    ++ String.intercalate "_" (film_index.map toString)
    ++ "_sub_miller_" ++ String.intercalate "_" (subs_index.map toString)
    ++ "_film_thickness_" ++ film_thickness
    ++ "_subs_thickness_" ++ subs_thickness
    ++ "_seperation_" ++ seperation
    ++ "_" ++ "disp_" ++ String.intercalate "_" dis

/-- The name composition C6 claims: identical to `interfaceName` except that
the film's explicit ID is indexed by the film's position `jj`. -/
def interfaceNameSpec (subs_ids film_ids : List String) (ii jj : ℕ)
    (film_index subs_index : List ℤ)
    (film_thickness subs_thickness seperation : String)
    (dis : List String) : String :=
  let tmp_i := if subs_ids = [] then toString ii else subs_ids.getD ii ""
  let tmp_j := if film_ids = [] then toString jj else film_ids.getD jj ""
  "Interface-" ++ tmp_i ++ "_" ++ tmp_j ++ "_" ++ "film_miller_"
    ++ String.intercalate "_" (film_index.map toString)
    ++ "_sub_miller_" ++ String.intercalate "_" (subs_index.map toString)
    ++ "_film_thickness_" ++ film_thickness
    ++ "_subs_thickness_" ++ subs_thickness
    ++ "_seperation_" ++ seperation
    ++ "_" ++ "disp_" ++ String.intercalate "_" dis

/-- C6 (code bug): with one substrate (`ii = 0`, id `S0`) and two films with
ids `FA`, `FB`, the name generated for the second film (`jj = 1`) carries
`FA` — the source's `film_ids[ii]` indexes the film identifiers by the
substrate position — whereas the claimed composition (film's ID at the
film's position) yields `FB`.  All other fields agree with the claimed fixed
field order. -/
theorem interface_name_film_id_bug :
    interfaceName ["S0"] ["FA", "FB"] 0 1 [0, 0, 1] [0, 0, 1]
        "8" "8" "2.5" ["0", "0"]
      = ("Interface-S0_FA_film_miller_0_0_1_sub_miller_0_0_1" ++
          "_film_thickness_8_subs_thickness_8_seperation_2.5_disp_0_0") ∧
    interfaceNameSpec ["S0"] ["FA", "FB"] 0 1 [0, 0, 1] [0, 0, 1]
        "8" "8" "2.5" ["0", "0"]
      = ("Interface-S0_FB_film_miller_0_0_1_sub_miller_0_0_1" ++
          "_film_thickness_8_subs_thickness_8_seperation_2.5_disp_0_0") ∧
    interfaceName ["S0"] ["FA", "FB"] 0 1 [0, 0, 1] [0, 0, 1]
        "8" "8" "2.5" ["0", "0"]
      ≠ interfaceNameSpec ["S0"] ["FA", "FB"] 0 1 [0, 0, 1] [0, 0, 1]
        "8" "8" "2.5" ["0", "0"] := by
  refine ⟨rfl, rfl, ?_⟩
  decide

/-! ### Supercell transform third row (`make_interface`, main.py lines 178-201)

For each side the code obtains an integer transform `scell` from the external
`find_matches` collaborator and then executes `scell[2] = np.array([0, 0, 1])`
before `make_supercell_matrix(scell)`. -/

/-- Source: `scell[2] = np.array([0, 0, 1])` — overwrite the third row of the
integer transform. -/
def forceThirdRow (T : Matrix (Fin 3) (Fin 3) ℤ) : Matrix (Fin 3) (Fin 3) ℤ :=
  Matrix.updateRow T 2 ![0, 0, 1]

/-- Modelled from the spec: `make_supercell_matrix` (an external structure
utility outside this repository) applies the integer transform to the
structure, producing a supercell whose lattice matrix is the transform times
the original lattice matrix. -/
def applySupercell (T : Matrix (Fin 3) (Fin 3) ℤ)
    (L : Matrix (Fin 3) (Fin 3) ℚ) : Matrix (Fin 3) (Fin 3) ℚ :=
  (T.map (Int.cast : ℤ → ℚ)) * L

/-- C8: for every structure (lattice `L`) and every integer transform `T`
returned by the matching collaborator, the supercell is derived from the
transform whose third row has been forced to `[0,0,1]` before application,
so the supercell's third (out-of-plane) lattice vector equals the input
structure's original third lattice vector.  Instantiating `T`, `L` for each
side covers both the film and the substrate supercell. -/
theorem supercell_keeps_third_vector (T : Matrix (Fin 3) (Fin 3) ℤ)
    (L : Matrix (Fin 3) (Fin 3) ℚ) :
    ∀ jj : Fin 3, applySupercell (forceThirdRow T) L 2 jj = L 2 jj := by
  intro jj
  unfold applySupercell forceThirdRow
  rw [Matrix.mul_apply, Fin.sum_univ_three]
  simp [Matrix.map_apply, Matrix.updateRow_self]

/-! ### Displacement grid (`InterfaceCombi.__init__`, main.py lines 91-103)

For `disp_intvl == 0` the grid is the single row `[[0, 0]]`; otherwise
`np.mgrid[-0.5+d : 0.5+d : d, -0.5+d : 0.5+d : d]` builds two square arrays
with `X[i, j] = -0.5 + d + i*d` and `Y[i, j] = -0.5 + d + j*d`, each axis
holding `ceil((stop - start)/step) = ceil(1/d)` samples, and
`np.vstack((X.flatten(), Y.flatten())).T` pairs them row-major. -/

/-- Embedding of one `np.mgrid` axis `-0.5+d : 0.5+d : d` (exact
arithmetic): `ceil(1/d)` samples starting at `-0.5 + d` with step `d`. -/
def mgrid1 (d : ℚ) : List ℚ :=
  (List.range (Int.toNat ⌈(1 : ℚ) / d⌉)).map
    (fun (i : ℕ) => -(1/2) + d + (i : ℚ) * d)

/-- Embedding of `self.xy`: `[[0, 0]]` when `disp_intvl == 0`, else the
row-major pairing `np.vstack((X.flatten(), Y.flatten())).T` of the two mesh
arrays. -/
def xyGrid (d : ℚ) : List (ℚ × ℚ) :=
  if d = 0 then [(0, 0)]
  else
    ((mgrid1 d).flatMap (fun xv => List.replicate (mgrid1 d).length xv)).zip
      ((List.replicate (mgrid1 d).length (mgrid1 d)).flatten)

/-- The grid C7 describes: the flattening of the regular 2D mesh running
from `-0.5 + d` to `0.5 + d` (exclusive) in steps of `d` along each axis. -/
def gridSpec (d : ℚ) : List (ℚ × ℚ) :=
  (mgrid1 d).flatMap (fun xv => (mgrid1 d).map (fun yv => (xv, yv)))

theorem zip_replicate_length {α β : Type} (a : α) (ys : List β) :
    (List.replicate ys.length a).zip ys = ys.map (fun y => (a, y)) := by
  induction ys with
  | nil => rfl
  | cons b t ih =>
      simp only [List.length_cons, List.replicate_succ, List.zip_cons_cons,
        List.map_cons, ih]

theorem zip_flatMap_replicate {α β : Type} (xs : List α) (ys : List β) :
    (xs.flatMap (fun xv => List.replicate ys.length xv)).zip
        ((List.replicate xs.length ys).flatten)
      = xs.flatMap (fun xv => ys.map (fun yv => (xv, yv))) := by
  induction xs with
  | nil => rfl
  | cons a t ih =>
      simp only [List.flatMap_cons, List.length_cons, List.replicate_succ,
        List.flatten_cons]
      rw [List.zip_append (by simp), ih, zip_replicate_length]

theorem length_pair_flatMap {α β : Type} (xs : List α) (ys : List β) :
    (xs.flatMap (fun xv => ys.map (fun yv => (xv, yv)))).length
      = xs.length * ys.length := by
  induction xs with
  | nil => simp
  | cons a t ih =>
      simp only [List.flatMap_cons, List.length_append, List.length_map,
        List.length_cons, ih, Nat.succ_mul]
      omega

theorem length_mgrid1 (d : ℚ) :
    (mgrid1 d).length = Int.toNat ⌈(1 : ℚ) / d⌉ := by
  unfold mgrid1
  simp

/-- C7: the lateral displacement grid is a pure function of the step `d`
fixed at construction: `d = 0` gives exactly the single offset `(0,0)`;
`0 < d` gives the flattening of the regular 2D mesh from `-0.5 + d` to
`0.5 + d` (exclusive) in steps of `d` along each axis, with
`ceil(1/d)` squared offset pairs; and `d = 0.5` gives exactly four
offsets. -/
theorem mgrid1_half : mgrid1 (1/2) = [0, 1/2] := by
  have h2 : ⌈(1 : ℚ) / (1/2)⌉ = 2 := by norm_num
  have hr : List.range 2 = [0, 1] := by decide
  unfold mgrid1
  rw [h2]
  show List.map _ (List.range 2) = _
  rw [hr]
  norm_num

theorem xyGrid_half : xyGrid (1/2) = [(0, 0), (0, 1/2), (1/2, 0), (1/2, 1/2)] := by
  unfold xyGrid
  rw [if_neg (by norm_num : (1/2 : ℚ) ≠ 0), mgrid1_half]
  rfl

theorem displacement_grid_characterization (d : ℚ) :
    (d = 0 → xyGrid d = [(0, 0)]) ∧
    (0 < d → xyGrid d = gridSpec d ∧
      (xyGrid d).length = (Int.toNat ⌈(1 : ℚ) / d⌉) ^ 2) ∧
    xyGrid (1/2) = [(0, 0), (0, 1/2), (1/2, 0), (1/2, 1/2)] := by
  refine ⟨fun h => by rw [h]; rfl, fun hd => ?_, xyGrid_half⟩
  have hne : d ≠ 0 := ne_of_gt hd
  have hzip : xyGrid d = gridSpec d := by
    unfold xyGrid gridSpec
    rw [if_neg hne]
    exact zip_flatMap_replicate (mgrid1 d) (mgrid1 d)
  refine ⟨hzip, ?_⟩
  rw [hzip]
  unfold gridSpec
  rw [length_pair_flatMap, length_mgrid1, sq]

/-- Witness for C7 at the concrete steps `d = 0` and `d = 1/2`. -/
theorem displacement_grid_characterization_witness :
    ((0 : ℚ) = 0 ∧ (0 : ℚ) < 1/2) ∧
    xyGrid 0 = [(0, 0)] ∧
    (xyGrid (1/2) = gridSpec (1/2) ∧
      (xyGrid (1/2)).length = (Int.toNat ⌈(1 : ℚ) / (1/2)⌉) ^ 2) :=
  ⟨⟨rfl, by norm_num⟩,
    (displacement_grid_characterization 0).1 rfl,
    (displacement_grid_characterization (1/2)).2.1 (by norm_num)⟩

/-! ### In-place rounding of the displacement grid (`generate`,
main.py lines 373-389)

Inside the innermost loop `for dis in self.xy:` the source binds
`dis_tmp = dis` — an alias of the current row of the `numpy` array `self.xy`
built in `__init__` — and executes

    dis_tmp[0] = round(dis_tmp[0], self.rount_digit)
    dis_tmp[1] = round(dis_tmp[1], self.rount_digit)

which writes through the alias into the stored grid.  The mutation is
embedded as an explicit state transformation: one pass over the row indices,
each step replacing the visited row by its rounded value. -/

/-- Round-half-to-even to an integer (the tie-breaking Python `round` uses),
on exact rationals. -/
def roundHalfEvenZ (q : ℚ) : ℤ :=
  if q - (⌊q⌋ : ℚ) < 1/2 then ⌊q⌋
  else if 1/2 < q - (⌊q⌋ : ℚ) then ⌊q⌋ + 1
  else if ⌊q⌋ % 2 = 0 then ⌊q⌋ else ⌊q⌋ + 1

/-- Embedding of Python `round(q, n)` on exact rationals: round-half-to-even
of `q * 10^n`, divided by `10^n`. -/
def pyRound (q : ℚ) (n : ℕ) : ℚ := (roundHalfEvenZ (q * 10 ^ n) : ℚ) / 10 ^ n

/-- Rounding of one grid row, as the two `round` assignments perform it. -/
def roundPair (n : ℕ) (p : ℚ × ℚ) : ℚ × ℚ := (pyRound p.1 n, pyRound p.2 n)

/-- One iteration of the innermost loop as it acts on the stored grid: the
row at index `k` is overwritten with its rounded value. -/
def sweepStep (n : ℕ) (xy : List (ℚ × ℚ)) (k : ℕ) : List (ℚ × ℚ) :=
  xy.set k (roundPair n (xy.getD k (0, 0)))

/-- The whole inner sweep of one `generate` run over the stored grid: visit
every row index in order, rounding in place. -/
def sweepGrid (n : ℕ) (xy : List (ℚ × ℚ)) : List (ℚ × ℚ) :=
  (List.range xy.length).foldl (sweepStep n) xy

theorem sweep_take_drop (n : ℕ) (xs : List (ℚ × ℚ)) :
    ∀ m, m ≤ xs.length →
      (List.range m).foldl (sweepStep n) xs
        = ((xs.take m).map (roundPair n)) ++ xs.drop m := by
  intro m
  induction m with
  | zero => intro _; simp
  | succ k ih =>
      intro hm
      have hk : k < xs.length := Nat.lt_of_succ_le hm
      rw [List.range_succ, List.foldl_append, ih (Nat.le_of_lt hk)]
      simp only [List.foldl_cons, List.foldl_nil]
      unfold sweepStep
      have hlenA : ((xs.take k).map (roundPair n)).length = k := by
        rw [List.length_map, List.length_take]
        omega
      have hdrop : xs.drop k = xs.get ⟨k, hk⟩ :: xs.drop (k + 1) := by
        rw [List.drop_eq_getElem_cons hk]
        rfl
      rw [hdrop]
      rw [List.getD_eq_getElem?_getD,
        List.getElem?_append_right (le_of_eq hlenA)]
      rw [hlenA, Nat.sub_self]
      rw [List.set_append_right _ _ (le_of_eq hlenA), hlenA,
        Nat.sub_self]
      have htake : xs.take (k + 1) = xs.take k ++ [xs.get ⟨k, hk⟩] := by
        rw [List.take_succ]
        congr 1
        rw [List.getElem?_eq_getElem hk]
        rfl
      rw [htake, List.map_append, List.append_assoc]
      simp
      rw [hdrop, List.getElem?_eq_getElem hk]
      rfl

theorem sweepGrid_eq_map (n : ℕ) (xs : List (ℚ × ℚ)) :
    sweepGrid n xs = xs.map (roundPair n) := by
  unfold sweepGrid
  rw [sweep_take_drop n xs xs.length (le_refl _),
    List.take_length, List.drop_length, List.append_nil]

theorem mgrid1_third : mgrid1 (1/3) = [-(1/6), 1/6, 1/2] := by
  have h3 : ⌈(1 : ℚ) / (1/3)⌉ = 3 := by norm_num
  have hr : List.range 3 = [0, 1, 2] := by decide
  unfold mgrid1
  rw [h3]
  show List.map _ (List.range 3) = _
  rw [hr]
  norm_num

theorem xyGrid_third :
    xyGrid (1/3)
      = [(-(1/6), -(1/6)), (-(1/6), 1/6), (-(1/6), 1/2),
          (1/6, -(1/6)), (1/6, 1/6), (1/6, 1/2),
          (1/2, -(1/6)), (1/2, 1/6), (1/2, 1/2)] := by
  unfold xyGrid
  rw [if_neg (by norm_num : (1/3 : ℚ) ≠ 0), mgrid1_third]
  rfl

theorem floor_neg_five_hundred_thirds : ⌊(-500/3 : ℚ)⌋ = -167 := by
  rw [Int.floor_eq_iff]
  constructor <;> norm_num

theorem pyRound_sixth : pyRound (-(1/6)) 3 = -167/1000 := by
  have h1 : (-(1 : ℚ)/6) * 10 ^ 3 = -500/3 := by norm_num
  have h2 : roundHalfEvenZ (-500/3) = -167 := by
    unfold roundHalfEvenZ
    rw [floor_neg_five_hundred_thirds]
    rw [if_pos (by push_cast; norm_num)]
  unfold pyRound
  rw [show (-(1 : ℚ)/6 : ℚ) = -(1/6) from by norm_num] at h1
  rw [h1, h2]
  norm_num

/-- C10: when the displacement interval `d` is non-zero, one `generate` run
mutates the enumerator's stored displacement grid in place: it writes the
values rounded to the configured digit count back into each visited row, so
afterwards the stored grid equals the rounded image of the mesh built at
construction — which, at `d = 1/3` with three rounding digits, differs from
the originally computed mesh values. -/
theorem generate_mutates_displacement_grid (d : ℚ) (n : ℕ) (hd : d ≠ 0) :
    sweepGrid n (xyGrid d) = (xyGrid d).map (roundPair n) ∧
    sweepGrid 3 (xyGrid (1/3)) ≠ xyGrid (1/3) := by
  refine ⟨sweepGrid_eq_map n (xyGrid d), ?_⟩
  rw [sweepGrid_eq_map 3 (xyGrid (1/3)), xyGrid_third]
  intro heq
  have h0 : roundPair 3 (-(1/6), -(1/6)) = ((-(1/6) : ℚ), (-(1/6) : ℚ)) := by
    have hh := congrArg (fun l => l.headD ((0 : ℚ), (0 : ℚ))) heq
    simpa using hh
  have h1 : pyRound (-(1/6)) 3 = (-(1/6) : ℚ) := congrArg Prod.fst h0
  rw [pyRound_sixth] at h1
  norm_num at h1

/-- Witness for C10 at the concrete step `d = 1/3` with the default three
rounding digits. -/
theorem generate_mutates_displacement_grid_witness :
    (1/3 : ℚ) ≠ 0 ∧
    (sweepGrid 3 (xyGrid (1/3)) = (xyGrid (1/3)).map (roundPair 3) ∧
      sweepGrid 3 (xyGrid (1/3)) ≠ xyGrid (1/3)) :=
  ⟨by norm_num,
    generate_mutates_displacement_grid (1/3) 3 (by norm_num)⟩

/-! ### Lateral displacement of the bottom slab (`generate`,
main.py lines 496-526)

The loop iterates `zip(coords, props)`, shifts the first two fractional
coordinates of every site tagged `"bottom"` by the rounded `(dx, dy)`, and
builds `new_intf` from the resulting coordinates together with the unchanged
elements, lattice matrix and props; the record stores the assembled
interface under `"interface"` and `new_intf` under `"generated_interface"`. -/

/-- Embedding of the external `Atoms` value consumed by the displacement
loop: lattice matrix, element labels, per-site provenance tags (`props`) and
fractional coordinates.  Modelled from the spec's data model: a structure is
an immutable value object ("immutable once returned; transformations produce
new instances"), so reading its fractional coordinates yields a value, not an
aliased mutable buffer. -/
structure CrystalStructure where
  lattice_mat : Matrix (Fin 3) (Fin 3) ℚ
  elements : List String
  props : List String
  coords : List (ℚ × ℚ × ℚ)

/-- Source (main.py lines 501-507): one iteration of the displacement loop —
a site whose tag is `"bottom"` has its first two fractional coordinates
shifted by `(dx, dy)`; any other site is kept unchanged. -/
def dispSite (dx dy : ℚ) (m : ℚ × ℚ × ℚ) (tag : String) : ℚ × ℚ × ℚ :=
  if tag = "bottom" then (m.1 + dx, m.2.1 + dy, m.2.2) else m

/-- Source (main.py lines 496-514): `new_intf` is built from `disp_coords`
(the loop over `zip(coords, props)`) with the same elements, lattice matrix
and props. -/
def displaceBottom (dx dy : ℚ) (ats : CrystalStructure) : CrystalStructure :=
  { ats with
    coords := (ats.coords.zip ats.props).map
      (fun p => dispSite dx dy p.1 p.2) }

/-- Source (main.py lines 520-526): the emitted record keeps the assembled
interface and the displaced structure. -/
structure CandidateRecord where
  interface : CrystalStructure
  generated_interface : CrystalStructure

/-- The displacement step of `generate` for one emitted candidate: the
record holds the assembled interface unchanged and the displaced structure
built from it. -/
def emitRecord (dx dy : ℚ) (ats : CrystalStructure) : CandidateRecord :=
  { interface := ats, generated_interface := displaceBottom dx dy ats }

theorem displace_coords_getD (dx dy : ℚ) (cs : List (ℚ × ℚ × ℚ))
    (ps : List String) (k : ℕ) (hk : k < cs.length)
    (hlen : ps.length = cs.length) :
    ((cs.zip ps).map (fun p => dispSite dx dy p.1 p.2)).getD k (0, 0, 0)
      = dispSite dx dy (cs.getD k (0, 0, 0)) (ps.getD k "") := by
  induction cs generalizing ps k with
  | nil => exact absurd hk (by simp)
  | cons c ct ih =>
      cases ps with
      | nil => simp at hlen
      | cons p pt =>
          cases k with
          | zero => rfl
          | succ j =>
              simp only [List.zip_cons_cons, List.map_cons,
                List.getD_cons_succ]
              exact ih pt j (by simpa using hk) (by simpa using hlen)

/-- C9: for every emitted candidate, the displaced structure differs from the
assembled interface only in the sites tagged `"bottom"`, whose first two
fractional coordinates are shifted by `(dx, dy)`; every other site, the
element sequence and the lattice are unchanged, and the record's stored
pre-displacement combined structure equals the interface exactly as
assembled, unaltered by the displacement step (structures are immutable
value objects per the collaborator contract). -/
theorem generate_displacement_frame (dx dy : ℚ) (ats : CrystalStructure)
    (hlen : ats.props.length = ats.coords.length) :
    (emitRecord dx dy ats).interface = ats ∧
    (emitRecord dx dy ats).generated_interface.elements = ats.elements ∧
    (emitRecord dx dy ats).generated_interface.lattice_mat
      = ats.lattice_mat ∧
    (emitRecord dx dy ats).generated_interface.props = ats.props ∧
    (emitRecord dx dy ats).generated_interface.coords.length
      = ats.coords.length ∧
    ∀ k, k < ats.coords.length →
      (emitRecord dx dy ats).generated_interface.coords.getD k (0, 0, 0)
        = (if ats.props.getD k "" = "bottom"
            then ((ats.coords.getD k (0, 0, 0)).1 + dx,
                  (ats.coords.getD k (0, 0, 0)).2.1 + dy,
                  (ats.coords.getD k (0, 0, 0)).2.2)
            else ats.coords.getD k (0, 0, 0)) := by
  refine ⟨rfl, rfl, rfl, rfl, ?_, ?_⟩
  · show ((ats.coords.zip ats.props).map _).length = _
    rw [List.length_map, List.length_zip, hlen, min_self]
  · intro k hk
    exact displace_coords_getD dx dy ats.coords ats.props k hk hlen

/-- Concrete two-site structure for the C9 witness: one `"top"` site and one
`"bottom"` site. -/
def witnessAts : CrystalStructure :=
  { lattice_mat := 1
    elements := ["Si", "Ag"]
    props := ["top", "bottom"]
    coords := [(0, 0, 0), (1/4, 1/4, 1/2)] }

/-- Witness for C9 at `witnessAts` with displacement `(1/10, 1/5)`. -/
theorem generate_displacement_frame_witness :
    witnessAts.props.length = witnessAts.coords.length ∧
    ((emitRecord (1/10) (1/5) witnessAts).interface = witnessAts ∧
      (emitRecord (1/10) (1/5) witnessAts).generated_interface.elements
        = witnessAts.elements ∧
      (emitRecord (1/10) (1/5) witnessAts).generated_interface.lattice_mat
        = witnessAts.lattice_mat ∧
      (emitRecord (1/10) (1/5) witnessAts).generated_interface.props
        = witnessAts.props ∧
      (emitRecord (1/10) (1/5) witnessAts).generated_interface.coords.length
        = witnessAts.coords.length ∧
      ∀ k, k < witnessAts.coords.length →
        (emitRecord (1/10) (1/5) witnessAts).generated_interface.coords.getD
            k (0, 0, 0)
          = (if witnessAts.props.getD k "" = "bottom"
              then ((witnessAts.coords.getD k (0, 0, 0)).1 + 1/10,
                    (witnessAts.coords.getD k (0, 0, 0)).2.1 + 1/5,
                    (witnessAts.coords.getD k (0, 0, 0)).2.2)
              else witnessAts.coords.getD k (0, 0, 0))) :=
  ⟨rfl, generate_displacement_frame (1/10) (1/5) witnessAts rfl⟩

end Intermat
